import Mathlib

/-!
# The Hero Foundry — rules-engine verification

A shallow embedding of the rules engine of The Hero Foundry backend
(`src/server/models/character.py`, `src/server/models/ruleset.py`,
`src/server/api/v1/endpoints/characters.py`,
`src/server/api/v1/endpoints/homebrew.py`), together with theorems about
the character derivation pipeline, the ruleset activation state machine,
the validation endpoints and the homebrew balance scorer.

Conventions of the embedding:
* Python `int` is modelled as `Int`; Python floor division `//` by the
  positive constants 2 and 4 is modelled as Lean's `Int` division `/`
  (Euclidean division, which agrees with floor division for a positive
  divisor).
* Python floats in the balance scorer are modelled as `ℚ`; every literal
  the scorer uses (0.1, 0.2, 0.5, …) is exact as a rational.
* JSON list/dict columns are modelled as `List String` and
  `List (String × Int)` (Python dicts preserve insertion order;
  `dict.get k default` is `lookupD`).
* Persistence metadata (timestamps, UUIDs, soft-delete flags) is outside
  the engine and not modelled; the `VersionedMixin` counters touched by
  `level_up` are kept.
-/

namespace HeroFoundry

/-! ## Ruleset state machine (src/server/models/ruleset.py) -/

/-- `RulesetStatus` enum of `ruleset.py`. -/
inductive RulesetStatus where
  | draft
  | active
  | deprecated
  | archived
  deriving DecidableEq, Repr

/-- A row of the `ruleset_dependencies` association as the engine reads it:
the dependency's own lifecycle status plus the edge's `dependency_type`
column. The code probes the attribute with
`hasattr(dep, 'dependency_type')`, so the field is an `Option`: `none`
models a dependency object carrying no such attribute. -/
structure RulesetDependency where
  dependency_type : Option String
  status : RulesetStatus
  deriving DecidableEq, Repr

/-- `dep.is_active()`: the dependency's status is `active`. -/
def RulesetDependency.is_active (d : RulesetDependency) : Bool :=
  d.status = RulesetStatus.active

/-- The fields of `Ruleset` that the activation state machine reads and
writes. -/
structure Ruleset where
  status : RulesetStatus
  dependencies : List RulesetDependency
  deriving DecidableEq, Repr

/-- `Ruleset.can_be_activated`: not deprecated or archived, and every
dependency whose `dependency_type` attribute exists and equals
`"required"` is itself active. -/
def Ruleset.can_be_activated (r : Ruleset) : Bool :=
  if r.status = RulesetStatus.deprecated ∨ r.status = RulesetStatus.archived then
    false
  else
    let required_deps := r.dependencies.filter
      (fun d => d.dependency_type = some "required")
    required_deps.all (fun d => d.is_active)

/-- `Ruleset.activate`: sets status to `active` and returns `True` when
`can_be_activated()` holds, otherwise leaves the ruleset unchanged and
returns `False`. -/
def Ruleset.activate (r : Ruleset) : Ruleset × Bool :=
  if r.can_be_activated then
    ({ r with status := RulesetStatus.active }, true)
  else
    (r, false)

/-- `Ruleset.deactivate`: unconditionally sets status to `draft`. -/
def Ruleset.deactivate (r : Ruleset) : Ruleset :=
  { r with status := RulesetStatus.draft }

/-- `Ruleset.deprecate`: unconditionally sets status to `deprecated`. -/
def Ruleset.deprecate (r : Ruleset) : Ruleset :=
  { r with status := RulesetStatus.deprecated }

/-- `Ruleset.archive`: unconditionally sets status to `archived`. -/
def Ruleset.archive (r : Ruleset) : Ruleset :=
  { r with status := RulesetStatus.archived }

/-- A ruleset already in the `archived` state, with no dependencies. -/
def archivedRuleset : Ruleset :=
  { status := RulesetStatus.archived, dependencies := [] }

/-! ## Character model (src/server/models/character.py)

The fields of `Character` that the derivation pipeline
(`_calculate_ability_modifiers`, `_calculate_skills`,
`_calculate_combat_values`), the progression engine (`add_experience`,
`level_up`) and the validation endpoint read or write. -/

structure Character where
  character_name : String
  level : Int
  experience_points : Int
  experience_to_next_level : Int
  strength : Int
  dexterity : Int
  constitution : Int
  intelligence : Int
  wisdom : Int
  charisma : Int
  strength_modifier : Int
  dexterity_modifier : Int
  constitution_modifier : Int
  intelligence_modifier : Int
  wisdom_modifier : Int
  charisma_modifier : Int
  max_hit_points : Int
  current_hit_points : Int
  temporary_hit_points : Int
  armor_class : Int
  initiative_bonus : Int
  proficiency_bonus : Int
  skill_proficiencies : List String
  skills : List (String × Int)
  spellcasting_ability : Option String
  spell_save_dc : Int
  spell_attack_bonus : Int
  major_version : Int
  minor_version : Int
  patch_version : Int

/-- Python `str.lower()` as the engine applies it (always to ASCII
attribute/skill names): lowercase every character. Defined through
`List.map` so that it evaluates inside the kernel. -/
def py_lower (s : String) : String := String.mk (s.data.map Char.toLower)

/-- `dict.get(key, 0)` on the ordered-pairs representation of a Python
dict with integer values. -/
def lookupD (l : List (String × Int)) (k : String) : Int :=
  match l.find? (fun p => p.1 = k) with
  | some p => p.2
  | none => 0

/-- `Character._calculate_ability_modifiers`: each modifier is
`(score - 10) // 2` (Python floor division; `Int` `/` agrees with it for
the positive divisor 2). -/
def Character.calculate_ability_modifiers (c : Character) : Character :=
  { c with
    strength_modifier := (c.strength - 10) / 2
    dexterity_modifier := (c.dexterity - 10) / 2
    constitution_modifier := (c.constitution - 10) / 2
    intelligence_modifier := (c.intelligence - 10) / 2
    wisdom_modifier := (c.wisdom - 10) / 2
    charisma_modifier := (c.charisma - 10) / 2 }

/-- The proficiency part of one entry of the skill dict:
`self.proficiency_bonus if name in self.skill_proficiencies else 0`.
(The method first replaces a missing/empty `skill_proficiencies` by `[]`,
which is the identity on the `List String` representation.) -/
def Character.prof_part (c : Character) (name : String) : Int :=
  if name ∈ c.skill_proficiencies then c.proficiency_bonus else 0

/-- `Character._calculate_skills`: rebuilds the `skills` dict with its 18
fixed keys, each bound to the governing ability's modifier plus the
proficiency bonus when the skill is in `skill_proficiencies`. -/
def Character.calculate_skills (c : Character) : Character :=
  { c with
    skills := [
      ("acrobatics", c.dexterity_modifier + c.prof_part "acrobatics"),
      ("animal_handling", c.wisdom_modifier + c.prof_part "animal_handling"),
      ("arcana", c.intelligence_modifier + c.prof_part "arcana"),
      ("athletics", c.strength_modifier + c.prof_part "athletics"),
      ("deception", c.charisma_modifier + c.prof_part "deception"),
      ("history", c.intelligence_modifier + c.prof_part "history"),
      ("insight", c.wisdom_modifier + c.prof_part "insight"),
      ("intimidation", c.charisma_modifier + c.prof_part "intimidation"),
      ("investigation", c.intelligence_modifier + c.prof_part "investigation"),
      ("medicine", c.wisdom_modifier + c.prof_part "medicine"),
      ("nature", c.intelligence_modifier + c.prof_part "nature"),
      ("perception", c.wisdom_modifier + c.prof_part "perception"),
      ("performance", c.charisma_modifier + c.prof_part "performance"),
      ("persuasion", c.charisma_modifier + c.prof_part "persuasion"),
      ("religion", c.intelligence_modifier + c.prof_part "religion"),
      ("sleight_of_hand", c.dexterity_modifier + c.prof_part "sleight_of_hand"),
      ("stealth", c.dexterity_modifier + c.prof_part "stealth"),
      ("survival", c.wisdom_modifier + c.prof_part "survival")] }

/-- `getattr(self, f"{ability}_modifier", 0)` for an already-lowercased
ability name: the six modifier attributes, defaulting to 0. -/
def Character.modifier_attr (c : Character) (ability : String) : Int :=
  if ability = "strength" then c.strength_modifier
  else if ability = "dexterity" then c.dexterity_modifier
  else if ability = "constitution" then c.constitution_modifier
  else if ability = "intelligence" then c.intelligence_modifier
  else if ability = "wisdom" then c.wisdom_modifier
  else if ability = "charisma" then c.charisma_modifier
  else 0

/-- `Character._calculate_combat_values`: armor class is
`10 + dexterity_modifier` when the modifier is positive, else `10`;
initiative bonus is the dexterity modifier; when `spellcasting_ability`
is set (a truthy, i.e. non-empty, string) the spell save DC and attack
bonus are derived from the proficiency bonus and that ability's
modifier. -/
def Character.calculate_combat_values (c : Character) : Character :=
  let c1 :=
    if c.dexterity_modifier > 0 then
      { c with armor_class := 10 + c.dexterity_modifier }
    else
      { c with armor_class := 10 }
  let c2 := { c1 with initiative_bonus := c1.dexterity_modifier }
  match c2.spellcasting_ability with
  | some sa =>
      if sa = "" then c2
      else
        let ability_modifier := c2.modifier_attr (py_lower sa)
        { c2 with
          spell_save_dc := 8 + c2.proficiency_bonus + ability_modifier
          spell_attack_bonus := c2.proficiency_bonus + ability_modifier }
  | none => c2

/-- `__post_init__`: derive modifiers, then skills, then combat values. -/
def Character.post_init (c : Character) : Character :=
  c.calculate_ability_modifiers.calculate_skills.calculate_combat_values

/-- `VersionedMixin.increment_version` (base.py): bumps the major, minor
or patch counter according to `version_type`. -/
def Character.increment_version (c : Character) (version_type : String) : Character :=
  if version_type = "major" then
    { c with major_version := c.major_version + 1, minor_version := 0, patch_version := 0 }
  else if version_type = "minor" then
    { c with minor_version := c.minor_version + 1, patch_version := 0 }
  else
    { c with patch_version := c.patch_version + 1 }

/-- `Character.level_up`: level `+= 1`, proficiency bonus recomputed as
`2 + (level - 1) // 4`, skills and combat values recomputed, minor
version bumped. -/
def Character.level_up (c : Character) : Character :=
  let c1 := { c with level := c.level + 1 }
  let c2 := { c1 with proficiency_bonus := 2 + (c1.level - 1) / 4 }
  ((c2.calculate_skills).calculate_combat_values).increment_version "minor"

/-- `Character.add_experience`: adds `xp` to `experience_points`; when
the new total reaches `experience_to_next_level`, performs exactly one
`level_up` and returns `True`, otherwise returns `False`. -/
def Character.add_experience (c : Character) (xp : Int) : Character × Bool :=
  let c1 := { c with experience_points := c.experience_points + xp }
  if c1.experience_points ≥ c1.experience_to_next_level then
    (c1.level_up, true)
  else
    (c1, false)

/-- `Character.get_skill_modifier`:
`self.skills.get(skill.lower(), 0) if self.skills else 0`. -/
def Character.get_skill_modifier (c : Character) (skill : String) : Int :=
  if c.skills.isEmpty then 0 else lookupD c.skills (py_lower skill)

/-! ## Character validation endpoint
(src/server/api/v1/endpoints/characters.py, `validate_character`) -/

/-- The validation payload the endpoint returns (less the ids and the
timestamp, which carry no engine content). -/
structure ValidationResult where
  is_valid : Bool
  validation_errors : List String
  warnings : List String
  deriving DecidableEq, Repr

/-- The six `(ability.title(), score)` pairs in the order the endpoint's
loop visits them. -/
def Character.ability_entries (c : Character) : List (String × Int) :=
  [("Strength", c.strength), ("Dexterity", c.dexterity),
   ("Constitution", c.constitution), ("Intelligence", c.intelligence),
   ("Wisdom", c.wisdom), ("Charisma", c.charisma)]

/-- The `validate_character` endpoint's check sequence: level, experience,
the six ability scores (error outside [1,30], warning above 20), hit
points; `is_valid` is `len(validation_errors) == 0`. The endpoint has no
check on the character's name. -/
def Character.validate_character (c : Character) : ValidationResult :=
  let level_errors :=
    if c.level < 1 then ["Character level must be at least 1"] else []
  let xp_errors :=
    if c.experience_points < 0 then ["Experience points cannot be negative"] else []
  let ability_errors := c.ability_entries.filterMap (fun p =>
    if p.2 < 1 ∨ p.2 > 30 then some (p.1 ++ " score must be between 1 and 30")
    else none)
  let ability_warnings := c.ability_entries.filterMap (fun p =>
    if ¬(p.2 < 1 ∨ p.2 > 30) ∧ p.2 > 20 then some (p.1 ++ " score is above 20 (unusual)")
    else none)
  let hp_errors :=
    if c.current_hit_points > c.max_hit_points then
      ["Current hit points cannot exceed maximum hit points"] else []
  let temp_hp_errors :=
    if c.temporary_hit_points < 0 then
      ["Temporary hit points cannot be negative"] else []
  let validation_errors :=
    level_errors ++ xp_errors ++ ability_errors ++ hp_errors ++ temp_hp_errors
  { is_valid := validation_errors.length == 0
    validation_errors := validation_errors
    warnings := ability_warnings }

/-- The `add-experience` endpoint: its `experience_points` query
parameter is declared `Query(..., ge=1)`, so a request with `xp < 1` is
rejected as invalid input before the handler (and thus
`Character.add_experience`) runs; otherwise the handler calls
`add_experience` and always succeeds. -/
def add_experience_endpoint (c : Character) (xp : Int) :
    Except String (Character × Bool) :=
  if xp < 1 then Except.error "InvalidInput"
  else Except.ok (c.add_experience xp)

/-! ## Homebrew balance scorer
(src/server/api/v1/endpoints/homebrew.py, `_validate_*_balance`) -/

/-- The race attributes `_validate_race_balance` reads:
the values of the `ability_score_increases` dict and the `traits` list. -/
structure RaceContent where
  ability_score_increases : List Int
  traits : List String

/-- The class attributes `_validate_class_balance` reads. -/
structure ClassContent where
  hit_die : String
  armor_proficiencies : List String
  weapon_proficiencies : List String

/-- The spell attributes `_validate_spell_balance` reads. -/
structure SpellContent where
  level : Int
  components : List String

/-- The item attributes `_validate_item_balance` reads. -/
structure ItemContent where
  rarity : String
  magical : Bool

/-- `_validate_race_balance`: base 0.5; +0.2 / +0.1 / −0.2 by total
ability increase; +0.1 / −0.2 by trait count; clamped to [0, 1]. -/
def validate_race_balance (content : RaceContent) : ℚ :=
  let score : ℚ := 0.5
  let total_increase : ℚ := (content.ability_score_increases.map (fun x => (x : ℚ))).sum
  let score :=
    if total_increase ≤ 2 then score + 0.2
    else if total_increase ≤ 3 then score + 0.1
    else score - 0.2
  let score :=
    if content.traits.length ≤ 3 then score + 0.1
    else if content.traits.length > 5 then score - 0.2
    else score
  max 0 (min 1 score)

/-- `_validate_class_balance`: base 0.5; ±0.1 by hit die; +0.1 / −0.2 by
armor + weapon proficiency count; clamped to [0, 1]. -/
def validate_class_balance (content : ClassContent) : ℚ :=
  let score : ℚ := 0.5
  let score :=
    if content.hit_die = "d12" then score + 0.1
    else if content.hit_die = "d6" then score - 0.1
    else score
  let profs := content.armor_proficiencies.length + content.weapon_proficiencies.length
  let score :=
    if profs ≤ 4 then score + 0.1
    else if profs > 8 then score - 0.2
    else score
  max 0 (min 1 score)

/-- `_validate_spell_balance`: base 0.5; +0.1 / −0.1 by level; +0.1 when
components include both "V" and "S"; clamped to [0, 1]. -/
def validate_spell_balance (content : SpellContent) : ℚ :=
  let score : ℚ := 0.5
  let score :=
    if content.level ≤ 3 then score + 0.1
    else if content.level ≥ 7 then score - 0.1
    else score
  let score :=
    if "V" ∈ content.components ∧ "S" ∈ content.components then score + 0.1
    else score
  max 0 (min 1 score)

/-- The `rarity_scores` dict of `_validate_item_balance`, read with
`.get(rarity, 0.0)`. -/
def rarity_scores (rarity : String) : ℚ :=
  if rarity = "common" then 0.1
  else if rarity = "uncommon" then 0.0
  else if rarity = "rare" then -0.1
  else if rarity = "very_rare" then -0.2
  else if rarity = "legendary" then -0.3
  else 0.0

/-- `_validate_item_balance`: base 0.5; rarity offset; −0.1 when magical;
clamped to [0, 1]. -/
def validate_item_balance (content : ItemContent) : ℚ :=
  let score : ℚ := 0.5
  let score := score + rarity_scores content.rarity
  let score := if content.magical then score - 0.1 else score
  max 0 (min 1 score)

/-- A homebrew submission as `_validate_content` dispatches on
`content_type`: one of the four typed attribute bags. -/
inductive HomebrewContent where
  | race : RaceContent → HomebrewContent
  | characterClass : ClassContent → HomebrewContent
  | spell : SpellContent → HomebrewContent
  | item : ItemContent → HomebrewContent

/-- The balance score `_validate_content` assigns: the content type's
`_validate_*_balance` function. -/
def balance_score : HomebrewContent → ℚ
  | HomebrewContent.race c => validate_race_balance c
  | HomebrewContent.characterClass c => validate_class_balance c
  | HomebrewContent.spell c => validate_spell_balance c
  | HomebrewContent.item c => validate_item_balance c

/-! ## The fixed skill table and its invariant -/

/-- The 18 keys of the skill dict, in the order `_calculate_skills`
writes them. -/
def skill_names : List String :=
  ["acrobatics", "animal_handling", "arcana", "athletics", "deception",
   "history", "insight", "intimidation", "investigation", "medicine",
   "nature", "perception", "performance", "persuasion", "religion",
   "sleight_of_hand", "stealth", "survival"]

/-- The modifier of the ability governing each skill, per the dict in
`_calculate_skills`. -/
def Character.governing_modifier (c : Character) (skill : String) : Int :=
  if skill ∈ ["acrobatics", "sleight_of_hand", "stealth"] then c.dexterity_modifier
  else if skill ∈ ["animal_handling", "insight", "medicine", "perception", "survival"] then
    c.wisdom_modifier
  else if skill ∈ ["arcana", "history", "investigation", "nature", "religion"] then
    c.intelligence_modifier
  else if skill = "athletics" then c.strength_modifier
  else if skill ∈ ["deception", "intimidation", "performance", "persuasion"] then
    c.charisma_modifier
  else 0

/-- The skill-table invariant: the keys of `skills` are exactly the 18
fixed names, and each entry's value is the governing ability's modifier
plus the proficiency bonus exactly when the skill is in
`skill_proficiencies`. -/
def skills_invariant (c : Character) : Prop :=
  c.skills.map Prod.fst = skill_names ∧
  ∀ name ∈ skill_names,
    lookupD c.skills name = c.governing_modifier name + c.prof_part name

/-! ## Concrete characters used as inputs of witnesses and
counterexamples (column defaults of the model, with an explicit name) -/

/-- A character with the model's column defaults and the name "Hero". -/
def sample_character : Character :=
  { character_name := "Hero"
    level := 1
    experience_points := 0
    experience_to_next_level := 300
    strength := 10, dexterity := 10, constitution := 10
    intelligence := 10, wisdom := 10, charisma := 10
    strength_modifier := 0, dexterity_modifier := 0, constitution_modifier := 0
    intelligence_modifier := 0, wisdom_modifier := 0, charisma_modifier := 0
    max_hit_points := 0, current_hit_points := 0, temporary_hit_points := 0
    armor_class := 10, initiative_bonus := 0
    proficiency_bonus := 2
    skill_proficiencies := []
    skills := []
    spellcasting_ability := none
    spell_save_dc := 0, spell_attack_bonus := 0
    major_version := 1, minor_version := 0, patch_version := 0 }

/-- `sample_character` with its name replaced by the empty string and
every validated field in range. -/
def unnamed_character : Character :=
  { sample_character with character_name := "" }

/-! ## Helper lemmas -/

/-- For any integer `x`, the Python floor division `(x - 10) // 2` of the
modifier formula equals the mathematical floor of `(x - 10) / 2` over ℚ. -/
theorem modifier_as_floor (x : Int) : (x - 10) / 2 = ⌊((x : ℚ) - 10) / 2⌋ := by
  rw [show ((x : ℚ) - 10) = (((x - 10 : ℤ)) : ℚ) by push_cast; ring]
  rw [show (2 : ℚ) = ((2 : ℕ) : ℚ) by norm_num, Rat.floor_intCast_div_natCast]
  norm_num

/-- `_calculate_combat_values` writes only the combat fields: the skill
dict, the six modifiers, the proficiency list and the proficiency bonus
are untouched. -/
theorem combat_fields (c : Character) :
    ((c.calculate_combat_values).skills = c.skills) ∧
    ((c.calculate_combat_values).strength_modifier = c.strength_modifier) ∧
    ((c.calculate_combat_values).dexterity_modifier = c.dexterity_modifier) ∧
    ((c.calculate_combat_values).constitution_modifier = c.constitution_modifier) ∧
    ((c.calculate_combat_values).intelligence_modifier = c.intelligence_modifier) ∧
    ((c.calculate_combat_values).wisdom_modifier = c.wisdom_modifier) ∧
    ((c.calculate_combat_values).charisma_modifier = c.charisma_modifier) ∧
    ((c.calculate_combat_values).skill_proficiencies = c.skill_proficiencies) ∧
    ((c.calculate_combat_values).proficiency_bonus = c.proficiency_bonus) := by
  obtain ⟨cn, lv, xpt, th, st, dx, co, it, wi, ch, stm, dxm, com, itm, wim, chm,
    mhp, chp, thp, ac, ib, pb, sp, sk, sa, dc, ab, mv, nv, pv⟩ := c
  rcases sa with _ | s
  · simp only [Character.calculate_combat_values]
    split_ifs <;> simp
  · by_cases hs : s = "" <;>
      simp only [Character.calculate_combat_values] <;>
      split_ifs <;> simp [hs]

/-- `increment_version` writes only the version counters. -/
theorem increment_fields (c : Character) (t : String) :
    ((c.increment_version t).skills = c.skills) ∧
    ((c.increment_version t).strength_modifier = c.strength_modifier) ∧
    ((c.increment_version t).dexterity_modifier = c.dexterity_modifier) ∧
    ((c.increment_version t).constitution_modifier = c.constitution_modifier) ∧
    ((c.increment_version t).intelligence_modifier = c.intelligence_modifier) ∧
    ((c.increment_version t).wisdom_modifier = c.wisdom_modifier) ∧
    ((c.increment_version t).charisma_modifier = c.charisma_modifier) ∧
    ((c.increment_version t).skill_proficiencies = c.skill_proficiencies) ∧
    ((c.increment_version t).proficiency_bonus = c.proficiency_bonus) := by
  unfold Character.increment_version
  split_ifs <;> simp

/-- `skills_invariant` only reads the skill dict, the modifiers, the
proficiency list and the proficiency bonus, so it transports across two
characters agreeing on those fields. -/
theorem skills_invariant_congr (c d : Character)
    (hsk : d.skills = c.skills)
    (hstm : d.strength_modifier = c.strength_modifier)
    (hdxm : d.dexterity_modifier = c.dexterity_modifier)
    (hcom : d.constitution_modifier = c.constitution_modifier)
    (hitm : d.intelligence_modifier = c.intelligence_modifier)
    (hwim : d.wisdom_modifier = c.wisdom_modifier)
    (hchm : d.charisma_modifier = c.charisma_modifier)
    (hsp : d.skill_proficiencies = c.skill_proficiencies)
    (hpb : d.proficiency_bonus = c.proficiency_bonus) :
    skills_invariant c → skills_invariant d := by
  simp only [skills_invariant, Character.governing_modifier, Character.prof_part,
    hsk, hstm, hdxm, hcom, hitm, hwim, hchm, hsp, hpb]
  exact id

/-- Any run of `_calculate_skills` establishes the skill-table
invariant. -/
theorem skills_invariant_calculate (c : Character) :
    skills_invariant (c.calculate_skills) := by
  constructor
  · simp [Character.calculate_skills, skill_names]
  · intro name hname
    simp only [skill_names, List.mem_cons, List.not_mem_nil, or_false] at hname
    rcases hname with rfl|rfl|rfl|rfl|rfl|rfl|rfl|rfl|rfl|rfl|rfl|rfl|rfl|rfl|rfl|rfl|rfl|rfl <;>
      simp [lookupD, Character.calculate_skills, Character.governing_modifier,
        Character.prof_part, List.find?]

/-- The invariant survives the combat recomputation that follows
`_calculate_skills` in the derivation pipeline. -/
theorem skills_invariant_after_combat (c : Character) :
    skills_invariant ((c.calculate_skills).calculate_combat_values) := by
  obtain ⟨b1, b2, b3, b4, b5, b6, b7, b8, b9⟩ := combat_fields (c.calculate_skills)
  exact skills_invariant_congr _ _ b1 b2 b3 b4 b5 b6 b7 b8 b9 (skills_invariant_calculate c)

/-- The invariant survives the full `level_up` tail: skills, then combat
values, then the version bump. -/
theorem skills_invariant_pipeline (c : Character) (t : String) :
    skills_invariant (((c.calculate_skills).calculate_combat_values).increment_version t) := by
  obtain ⟨i1, i2, i3, i4, i5, i6, i7, i8, i9⟩ :=
    increment_fields ((c.calculate_skills).calculate_combat_values) t
  exact skills_invariant_congr _ _ i1 i2 i3 i4 i5 i6 i7 i8 i9 (skills_invariant_after_combat c)

/-! ## The claims -/

/-- Claim C1: for a draft ruleset with a `required` dependency edge to a
ruleset D (all other `required` dependencies active), `can_be_activated`
is false while D is draft and true once D is active, everything else held
constant. -/
theorem required_dependency_gates_activation
    (r : Ruleset) (pre post : List RulesetDependency)
    (hdraft : r.status = RulesetStatus.draft)
    (hothers : ∀ d ∈ pre ++ post, d.dependency_type = some "required" →
      d.status = RulesetStatus.active) :
    (({ r with dependencies :=
        pre ++ ⟨some "required", RulesetStatus.draft⟩ :: post } : Ruleset).can_be_activated
      = false) ∧
    (({ r with dependencies :=
        pre ++ ⟨some "required", RulesetStatus.active⟩ :: post } : Ruleset).can_be_activated
      = true) := by
  constructor
  · simp only [Ruleset.can_be_activated, hdraft]
    rw [if_neg (by simp)]
    rw [Bool.eq_false_iff]
    intro hall
    rw [List.all_eq_true] at hall
    have hmem : (⟨some "required", RulesetStatus.draft⟩ : RulesetDependency) ∈
        (pre ++ ⟨some "required", RulesetStatus.draft⟩ :: post).filter
          (fun d => d.dependency_type = some "required") := by
      simp [List.mem_filter]
    have := hall _ hmem
    simp [RulesetDependency.is_active] at this
  · simp only [Ruleset.can_be_activated, hdraft]
    rw [if_neg (by simp)]
    rw [List.all_eq_true]
    intro d hd
    rw [List.mem_filter] at hd
    obtain ⟨hd1, hd2⟩ := hd
    rw [List.mem_append, List.mem_cons] at hd1
    rcases hd1 with h | h | h
    · have := hothers d (by simp [h]) (by simpa using hd2)
      simp [RulesetDependency.is_active, this]
    · simp [h, RulesetDependency.is_active]
    · have := hothers d (by simp [h]) (by simpa using hd2)
      simp [RulesetDependency.is_active, this]

/-- Witness for C1: a draft ruleset with a single `required` dependency
cannot be activated while that dependency is draft, and can be once it is
active. -/
theorem required_dependency_gates_activation_witness :
    ((Ruleset.mk RulesetStatus.draft
      [RulesetDependency.mk (some "required") RulesetStatus.draft]).can_be_activated = false) ∧
    ((Ruleset.mk RulesetStatus.draft
      [RulesetDependency.mk (some "required") RulesetStatus.active]).can_be_activated = true) := by
  exact required_dependency_gates_activation
    (Ruleset.mk RulesetStatus.draft []) [] [] rfl (by simp)

/-- Counterexample to claim C2 as stated: `deactivate()` is an engine
operation that changes the status of an archived ruleset (to draft), so
deprecated/archived are not terminal against every engine operation. -/
theorem deactivate_escapes_archived_cex :
    (archivedRuleset.deactivate).status ≠ archivedRuleset.status := by
  decide

/-- Claim C2 (amended): `activate` never changes a deprecated or archived
ruleset (it returns it unchanged with `ok = false`), but `deactivate`,
`deprecate` and `archive` are unconditional: `deactivate` resets even a
deprecated or archived ruleset to draft (from which it can be activated
again), `deprecate` moves archived to deprecated, and `archive` moves
deprecated to archived. -/
theorem terminal_states_amended (r : Ruleset)
    (hterm : r.status = RulesetStatus.deprecated ∨ r.status = RulesetStatus.archived) :
    ((r.activate).1 = r ∧ (r.activate).2 = false) ∧
    ((r.deactivate).status = RulesetStatus.draft) ∧
    ((r.deprecate).status = RulesetStatus.deprecated) ∧
    ((r.archive).status = RulesetStatus.archived) := by
  have hcba : r.can_be_activated = false := by
    rcases hterm with h | h <;> simp [Ruleset.can_be_activated, h]
  refine ⟨?_, rfl, rfl, rfl⟩
  simp [Ruleset.activate, hcba]

/-- Witness for the amended C2, at the deprecated ruleset obtained from
`archivedRuleset`. -/
theorem terminal_states_amended_witness :
    (RulesetStatus.deprecated = RulesetStatus.deprecated ∨
      RulesetStatus.deprecated = RulesetStatus.archived) ∧
    ((((archivedRuleset.deprecate).activate).1 = archivedRuleset.deprecate ∧
      ((archivedRuleset.deprecate).activate).2 = false) ∧
    (((archivedRuleset.deprecate).deactivate).status = RulesetStatus.draft) ∧
    (((archivedRuleset.deprecate).deprecate).status = RulesetStatus.deprecated) ∧
    (((archivedRuleset.deprecate).archive).status = RulesetStatus.archived)) := by
  exact ⟨Or.inl rfl, terminal_states_amended (archivedRuleset.deprecate) (Or.inl rfl)⟩

/-- Claim C3: for any `xp ≥ 1`, `add_experience` adds exactly `xp` to the
experience points; it returns true and raises the level by exactly one
when the new total reaches the threshold (no matter how large `xp` is),
and returns false leaving the level unchanged otherwise. -/
theorem add_experience_single_level_up (c : Character) (xp : Int) (hxp : 1 ≤ xp) :
    ((c.add_experience xp).1.experience_points = c.experience_points + xp) ∧
    ((c.add_experience xp).2 =
      decide (c.experience_to_next_level ≤ c.experience_points + xp)) ∧
    ((c.add_experience xp).1.level =
      if c.experience_to_next_level ≤ c.experience_points + xp then c.level + 1
      else c.level) := by
  clear hxp
  obtain ⟨cn, lv, xpt, th, st, dx, co, it, wi, ch, stm, dxm, com, itm, wim, chm,
    mhp, chp, thp, ac, ib, pb, sp, sk, sa, dc, ab, mv, nv, pv⟩ := c
  rcases sa with _ | s
  · simp only [Character.add_experience, Character.level_up, Character.calculate_skills,
      Character.calculate_combat_values, Character.increment_version]
    split_ifs <;> simp_all
  · by_cases hs : s = "" <;>
      simp only [Character.add_experience, Character.level_up, Character.calculate_skills,
        Character.calculate_combat_values, Character.increment_version, hs] <;>
      split_ifs <;> simp_all

/-- Witness for C3: giving 300 XP to the default character (threshold
300, XP 0) adds exactly 300 XP and triggers exactly one level-up. -/
theorem add_experience_single_level_up_witness :
    (1 : Int) ≤ 300 ∧
    (((sample_character.add_experience 300).1.experience_points =
        sample_character.experience_points + 300) ∧
    ((sample_character.add_experience 300).2 =
      decide (sample_character.experience_to_next_level ≤
        sample_character.experience_points + 300)) ∧
    ((sample_character.add_experience 300).1.level =
      if sample_character.experience_to_next_level ≤
          sample_character.experience_points + 300 then sample_character.level + 1
      else sample_character.level)) :=
  ⟨by norm_num, add_experience_single_level_up sample_character 300 (by norm_num)⟩

/-- Claim C4: the add-experience endpoint rejects exactly the calls with
`xp < 1` as invalid input (leaving the character untouched, since the
handler never runs), and succeeds on every other input. -/
theorem add_experience_endpoint_guard (c : Character) (xp : Int) :
    (add_experience_endpoint c xp = Except.error "InvalidInput" ↔ xp < 1) ∧
    ((add_experience_endpoint c xp).isOk = true ↔ 1 ≤ xp) := by
  unfold add_experience_endpoint
  split_ifs with h <;> simp_all [Except.isOk, Except.toBool] <;> omega

/-- Claim C5: the computed ability modifiers equal the mathematical floor
of `(score − 10) / 2` (rounding toward negative infinity) for every
score; in particular a score of 9 gives −1, 10 gives 0 and 20 gives 5. -/
theorem ability_modifier_is_floor_div (c : Character) :
    ((c.calculate_ability_modifiers).strength_modifier = ⌊((c.strength : ℚ) - 10) / 2⌋) ∧
    ((c.calculate_ability_modifiers).dexterity_modifier = ⌊((c.dexterity : ℚ) - 10) / 2⌋) ∧
    ((c.calculate_ability_modifiers).constitution_modifier = ⌊((c.constitution : ℚ) - 10) / 2⌋) ∧
    ((c.calculate_ability_modifiers).intelligence_modifier = ⌊((c.intelligence : ℚ) - 10) / 2⌋) ∧
    ((c.calculate_ability_modifiers).wisdom_modifier = ⌊((c.wisdom : ℚ) - 10) / 2⌋) ∧
    ((c.calculate_ability_modifiers).charisma_modifier = ⌊((c.charisma : ℚ) - 10) / 2⌋) ∧
    ((Character.calculate_ability_modifiers { c with strength := 9 }).strength_modifier = -1) ∧
    ((Character.calculate_ability_modifiers { c with strength := 10 }).strength_modifier = 0) ∧
    ((Character.calculate_ability_modifiers { c with strength := 20 }).strength_modifier = 5) := by
  simp only [Character.calculate_ability_modifiers]
  refine ⟨modifier_as_floor _, modifier_as_floor _, modifier_as_floor _,
    modifier_as_floor _, modifier_as_floor _, modifier_as_floor _,
    by decide, by decide, by decide⟩

/-- Claim C6: after combat derivation the armor class is
`10 + dexterity_modifier` when the modifier is positive and `10`
otherwise — never below 10 — while the initiative bonus is the dexterity
modifier with no floor. -/
theorem combat_derivation_armor_initiative (c : Character) :
    ((c.calculate_combat_values).armor_class =
      if c.dexterity_modifier > 0 then 10 + c.dexterity_modifier else 10) ∧
    (10 ≤ (c.calculate_combat_values).armor_class) ∧
    ((c.calculate_combat_values).initiative_bonus = c.dexterity_modifier) := by
  obtain ⟨cn, lv, xpt, th, st, dx, co, it, wi, ch, stm, dxm, com, itm, wim, chm,
    mhp, chp, thp, ac, ib, pb, sp, sk, sa, dc, ab, mv, nv, pv⟩ := c
  rcases sa with _ | s
  · simp only [Character.calculate_combat_values]
    split_ifs with h1 <;> simp <;> omega
  · by_cases hs : s = "" <;>
      simp only [Character.calculate_combat_values, hs, if_true, if_false] <;>
      split_ifs with h1 <;> simp_all <;> omega

/-- Claim C7: for every content type and arbitrary attribute values, the
balance score lies in [0, 1] (base 0.5 plus the per-type adjustments,
clamped at the end). -/
theorem balance_score_clamped (content : HomebrewContent) :
    0 ≤ balance_score content ∧ balance_score content ≤ 1 := by
  have h : ∀ s : ℚ, 0 ≤ max 0 (min 1 s) ∧ max 0 (min 1 s) ≤ 1 := fun s =>
    ⟨le_max_left 0 _, max_le (by norm_num) (min_le_left 1 s)⟩
  cases content <;>
    simp only [balance_score, validate_race_balance, validate_class_balance,
      validate_spell_balance, validate_item_balance] <;>
    exact h _

/-- Counterexample to claim C8 as stated: a character with an empty name
and every other field in range validates with no error and
`is_valid = true`, so validation reports no error for a missing name. -/
theorem empty_name_passes_validation_cex :
    unnamed_character.character_name = "" ∧
    (unnamed_character.validate_character).is_valid = true ∧
    (unnamed_character.validate_character).validation_errors = [] := by
  decide

/-- Claim C8 (amended): the validation endpoint never checks the name —
its result is identical for every value of `character_name`, so an empty
or missing name yields no error; `is_valid` is true exactly when the
error list is empty, and warnings never affect validity. -/
theorem validation_ignores_name_amended (c : Character) (name : String) :
    (Character.validate_character { c with character_name := name } =
      c.validate_character) ∧
    ((c.validate_character).is_valid = true ↔
      (c.validate_character).validation_errors = []) := by
  constructor
  · rfl
  · unfold Character.validate_character
    simp [List.length_eq_zero]

/-- Counterexample to claim C9 as stated: looking up the unknown skill
name "flying" (outside the 18 fixed keys) on a fully derived character is
answered with the value 0, not rejected as invalid input. -/
theorem unknown_skill_answered_cex :
    ("flying" ∉ skill_names) ∧
    ((sample_character.post_init).get_skill_modifier "flying" = 0) := by
  decide

/-- Claim C9 (amended): the skill table's keys are exactly the fixed
closed set of 18 skill names, but a lookup with a name outside that set
is answered with the default value 0 rather than rejected. -/
theorem skill_lookup_amended (c : Character) (skill : String) :
    ((c.calculate_skills).skills.map Prod.fst = skill_names) ∧
    (py_lower skill ∉ skill_names →
      (c.calculate_skills).get_skill_modifier skill = 0) := by
  refine ⟨by simp [Character.calculate_skills, skill_names], fun hnot => ?_⟩
  rw [Character.get_skill_modifier]
  split_ifs with h
  · rfl
  · rw [lookupD]
    cases hfind : List.find? (fun p => p.1 = py_lower skill) (c.calculate_skills).skills with
    | none => rfl
    | some p =>
        exfalso
        have hmem := List.mem_of_find?_eq_some hfind
        have hpred := List.find?_some hfind
        simp only [decide_eq_true_eq] at hpred
        apply hnot
        rw [← hpred]
        simp only [Character.calculate_skills, List.mem_cons, List.not_mem_nil, or_false] at hmem
        rcases hmem with rfl|rfl|rfl|rfl|rfl|rfl|rfl|rfl|rfl|rfl|rfl|rfl|rfl|rfl|rfl|rfl|rfl|rfl <;>
          simp [skill_names]

/-- Claim C10: after every skill recomputation — `_calculate_skills`
itself, creation (`__post_init__`) and `level_up` — the `skills` mapping
has exactly the 18 fixed names as keys and each value is the governing
ability's modifier plus the proficiency bonus exactly when the skill is
in `skill_proficiencies`; entries of `skill_proficiencies` outside the 18
names add no keys and change no values. -/
theorem skill_table_invariant (c : Character) :
    skills_invariant (c.calculate_skills) ∧
    skills_invariant (c.post_init) ∧
    skills_invariant (c.level_up) := by
  refine ⟨skills_invariant_calculate c, ?_, ?_⟩
  · exact skills_invariant_after_combat _
  · exact skills_invariant_pipeline _ _

end HeroFoundry
